import Mathlib

/-!
Shallow embedding of the payx per-account transaction engine
(`src/transaction.rs`, `src/client.rs`, `src/lib.rs`).

Modelling choices:
* `rust_decimal::Decimal` amounts and balances become exact rationals
  (`ℚ`): the source relies on exact fixed-point decimal arithmetic, and
  the operations used (addition, negation, comparison) are exact there.
* `ClientId` (`u16`) and `TransactionId` (`u32`) are opaque identifiers
  compared only for equality; they become `Nat`.
* `IndexMap` becomes an insertion-ordered association list (the code
  only inserts a key after checking it is absent, so insertion is
  appending), `Vec` becomes `List`.
* `ClientAccount::append_tx` takes `&mut self` in Rust and mutates the
  account field by field before it may return an error, so its embedding
  returns the resulting account state alongside the `Result`: the state
  paired with an error is the state as left behind by the partial
  mutation, exactly as the Rust borrow leaves it.
-/

deriving instance DecidableEq for Except

abbrev ClientId := Nat

abbrev TransactionId := Nat

/-- `TransactionType` from `src/transaction.rs`: the five transaction
variants; only deposits and withdrawals carry an amount. -/
inductive TransactionType where
  | deposit (amount : ℚ)
  | withdrawal (amount : ℚ)
  | dispute
  | resolve
  | chargeback
  deriving DecidableEq

/-- `Transaction` from `src/transaction.rs`. For dispute-family
transactions `id` references a previous transaction. -/
structure Transaction where
  ty : TransactionType
  client_id : ClientId
  id : TransactionId
  deriving DecidableEq

/-- `Transaction::deposit_amount`: the amount when the variant is
`Deposit`, `none` otherwise. -/
def Transaction.deposit_amount (t : Transaction) : Option ℚ :=
  match t.ty with
  | TransactionType.deposit amount => some amount
  | _ => none

/-- `TransactionError` from `src/client.rs`. -/
inductive TransactionError where
  | LockedAccount
  | NotEnoughBalance
  | DuplicateTransactionId
  deriving DecidableEq

/-- `IndexMap::get` on the insertion-ordered transaction log. -/
def logGet (log : List (TransactionId × Transaction)) (i : TransactionId) :
    Option Transaction :=
  (log.find? (fun p => p.1 == i)).map (fun p => p.2)

/-- `IndexMap::contains_key` on the insertion-ordered transaction log. -/
def logContains (log : List (TransactionId × Transaction)) (i : TransactionId) : Bool :=
  (log.find? (fun p => p.1 == i)).isSome

/-- `ClientAccount` from `src/client.rs`: one client's log, active
disputes, balances and lock flag. -/
structure ClientAccount where
  id : ClientId
  log : List (TransactionId × Transaction)
  disputes : List TransactionId
  available : ℚ
  held : ℚ
  locked : Bool
  deriving DecidableEq

/-- `ClientAccount::new`: a fresh account with empty log and dispute
list, zero balances, unlocked. -/
def ClientAccount.new (i : ClientId) : ClientAccount :=
  { id := i, log := [], disputes := [], available := 0, held := 0, locked := false }

/-- `ClientAccount::in_dispute`. -/
def ClientAccount.in_dispute (self : ClientAccount) (tx : TransactionId) : Bool :=
  self.disputes.contains tx

/-- `ClientAccount::has_balance`. -/
def ClientAccount.has_balance (self : ClientAccount) (amount : ℚ) : Bool :=
  decide (self.available ≥ amount)

/-- `ClientAccount::total`: the sum of `available` and `held`, computed
on read. -/
def ClientAccount.total (self : ClientAccount) : ℚ :=
  self.available + self.held

/-- `DisputeAction` from `src/client.rs`. -/
inductive DisputeAction where
  | Start (i : TransactionId)
  | End (i : TransactionId)
  deriving DecidableEq

/-- `TxDiff` from `src/client.rs`: a transaction's resulting effect. -/
structure TxDiff where
  available : ℚ
  held : ℚ
  lock : Option Bool
  dispute : Option DisputeAction
  deriving DecidableEq

/-- `TxDiff::default()`: the zero diff. -/
def TxDiff.default : TxDiff :=
  { available := 0, held := 0, lock := none, dispute := none }

/-- `TxDiff::deposit`: increases available balance. -/
def TxDiff.deposit (amount : ℚ) : TxDiff :=
  { TxDiff.default with available := amount }

/-- `TxDiff::withdraw`: decreases available balance. -/
def TxDiff.withdraw (amount : ℚ) : TxDiff :=
  { TxDiff.default with available := -amount }

/-- `TxDiff::dispute`: holds the disputed amount, decreasing available
balance (named `disputeDiff` here because `dispute` is already the
field name). -/
def TxDiff.disputeDiff (tx : TransactionId) (amount : ℚ) : TxDiff :=
  { TxDiff.default with
      available := -amount
      held := amount
      dispute := some (DisputeAction.Start tx) }

/-- `TxDiff::resolve`: frees a previously held amount, increasing
available balance. -/
def TxDiff.resolveDiff (tx : TransactionId) (amount : ℚ) : TxDiff :=
  { TxDiff.default with
      available := amount
      held := -amount
      dispute := some (DisputeAction.End tx) }

/-- `TxDiff::chargeback`: burns a previously held amount, locking the
account. -/
def TxDiff.chargebackDiff (tx : TransactionId) (amount : ℚ) : TxDiff :=
  { TxDiff.default with
      held := -amount
      lock := some true
      dispute := some (DisputeAction.End tx) }

/-- `TxDiff::calculate` from `src/client.rs`: given a transaction and
the client associated to it, calculate a state difference to be
applied. The dispute-family arms mirror the Rust let-chains: any arm
whose conditions fail falls through to the zero diff. -/
def TxDiff.calculate (client : ClientAccount) (tx : Transaction) :
    Except TransactionError TxDiff :=
  match tx.ty with
  | TransactionType.deposit amount => Except.ok (TxDiff.deposit amount)
  | TransactionType.withdrawal amount =>
      if client.has_balance amount then Except.ok (TxDiff.withdraw amount)
      else Except.error TransactionError.NotEnoughBalance
  | TransactionType.dispute =>
      match logGet client.log tx.id with
      | some target =>
          match target.deposit_amount with
          | some amount =>
              if client.in_dispute tx.id then Except.ok TxDiff.default
              else Except.ok (TxDiff.disputeDiff tx.id amount)
          | none => Except.ok TxDiff.default
      | none => Except.ok TxDiff.default
  | TransactionType.resolve =>
      match logGet client.log tx.id with
      | some target =>
          match target.deposit_amount with
          | some amount =>
              if client.in_dispute tx.id then Except.ok (TxDiff.resolveDiff tx.id amount)
              else Except.ok TxDiff.default
          | none => Except.ok TxDiff.default
      | none => Except.ok TxDiff.default
  | TransactionType.chargeback =>
      match logGet client.log tx.id with
      | some target =>
          match target.deposit_amount with
          | some amount =>
              if client.in_dispute tx.id then Except.ok (TxDiff.chargebackDiff tx.id amount)
              else Except.ok TxDiff.default
          | none => Except.ok TxDiff.default
      | none => Except.ok TxDiff.default

/-- `ClientAccount::append_tx` from `src/client.rs`, step by step:
reject if locked, calculate the diff (propagating its error), add the
balance deltas, apply an optional lock transition, then either mutate
the dispute list or — when the diff carries no dispute action — check
for a duplicate id and insert the transaction into the log. The
returned account is the state the Rust `&mut self` is left in, also on
the duplicate-id error path, which in the source returns after the
balance fields were already updated. -/
def ClientAccount.append_tx (self : ClientAccount) (tx : Transaction) :
    Except TransactionError Unit × ClientAccount :=
  if self.locked then (Except.error TransactionError.LockedAccount, self)
  else
    match TxDiff.calculate self tx with
    | Except.error e => (Except.error e, self)
    | Except.ok diff =>
        let s1 : ClientAccount :=
          { self with
              available := self.available + diff.available
              held := self.held + diff.held }
        let s2 : ClientAccount :=
          match diff.lock with
          | some lock => { s1 with locked := lock }
          | none => s1
        match diff.dispute with
        | some (DisputeAction.Start i) =>
            (Except.ok (), { s2 with disputes := s2.disputes ++ [i] })
        | some (DisputeAction.End i) =>
            (Except.ok (), { s2 with disputes := s2.disputes.filter (fun d => d != i) })
        | none =>
            if logContains s2.log tx.id then
              (Except.error TransactionError.DuplicateTransactionId, s2)
            else
              (Except.ok (), { s2 with log := s2.log ++ [(tx.id, tx)] })

/-- Replay a list of transactions against an account, continuing past
per-transaction errors exactly as `ClientBook::from_csv` does (errors
are reported and processing continues on the mutated account). -/
def ClientAccount.replay (acc : ClientAccount) (txs : List Transaction) : ClientAccount :=
  txs.foldl (fun a tx => (ClientAccount.append_tx a tx).2) acc

/-- `IndexMap::get` on the client book. -/
def bookGet (book : List (ClientId × ClientAccount)) (cid : ClientId) :
    Option ClientAccount :=
  (book.find? (fun p => p.1 == cid)).map (fun p => p.2)

/-- Replace the account stored under `cid`, preserving insertion
order (in-place mutation through `IndexMap::entry`). -/
def bookSet (book : List (ClientId × ClientAccount)) (cid : ClientId)
    (acc : ClientAccount) : List (ClientId × ClientAccount) :=
  book.map (fun p => if p.1 == cid then (p.1, acc) else p)

/-- `ClientBook` from `src/lib.rs`: an insertion-ordered mapping from
client id to account. -/
structure ClientBook where
  clients : List (ClientId × ClientAccount)
  deriving DecidableEq

/-- `ClientBook::append_tx`: look up the addressed account, creating a
fresh one on first sight, and delegate to `ClientAccount::append_tx`;
the account stays in the book mutated even when the append fails. -/
def ClientBook.append_tx (book : ClientBook) (tx : Transaction) :
    Except TransactionError Unit × ClientBook :=
  match bookGet book.clients tx.client_id with
  | some acc =>
      let r := ClientAccount.append_tx acc tx
      (r.1, { clients := bookSet book.clients tx.client_id r.2 })
  | none =>
      let r := ClientAccount.append_tx (ClientAccount.new tx.client_id) tx
      (r.1, { clients := book.clients ++ [(tx.client_id, r.2)] })

/-- The transaction-processing loop of `ClientBook::from_csv`:
per-transaction errors are reported and processing continues. -/
def ClientBook.replay (txs : List Transaction) : ClientBook :=
  txs.foldl (fun b tx => (ClientBook.append_tx b tx).2) { clients := [] }

/-- The end-to-end scenario transaction list from the spec, all for
client 1. -/
def scenarioTxs : List Transaction :=
  [ { ty := TransactionType.deposit 10, client_id := 1, id := 1 }
  , { ty := TransactionType.withdrawal 4, client_id := 1, id := 2 }
  , { ty := TransactionType.dispute, client_id := 1, id := 1 }
  , { ty := TransactionType.resolve, client_id := 1, id := 1 }
  , { ty := TransactionType.dispute, client_id := 1, id := 1 }
  , { ty := TransactionType.chargeback, client_id := 1, id := 1 } ]

/-- The invariant of claim C9: every identifier in the active-dispute
list is present in the log and the logged entry's variant is
`Deposit`. -/
def DisputesLogged (acc : ClientAccount) : Prop :=
  ∀ t ∈ acc.disputes, ∃ tx a,
    logGet acc.log t = some tx ∧ tx.ty = TransactionType.deposit a

/-- Literal constructor for a deposit transaction. -/
def depositTx (c : ClientId) (t : TransactionId) (a : ℚ) : Transaction :=
  { ty := TransactionType.deposit a, client_id := c, id := t }

/-- Literal constructor for a withdrawal transaction. -/
def withdrawalTx (c : ClientId) (t : TransactionId) (a : ℚ) : Transaction :=
  { ty := TransactionType.withdrawal a, client_id := c, id := t }

/-- Literal constructor for a dispute transaction referencing `t`. -/
def disputeTx (c : ClientId) (t : TransactionId) : Transaction :=
  { ty := TransactionType.dispute, client_id := c, id := t }

/-- Literal constructor for a resolve transaction referencing `t`. -/
def resolveTx (c : ClientId) (t : TransactionId) : Transaction :=
  { ty := TransactionType.resolve, client_id := c, id := t }

/-- Literal constructor for a chargeback transaction referencing `t`. -/
def chargebackTx (c : ClientId) (t : TransactionId) : Transaction :=
  { ty := TransactionType.chargeback, client_id := c, id := t }

/-- A fresh account for client 1 after one logged deposit of 10 under
transaction id 1. -/
def accDep10 : ClientAccount :=
  (ClientAccount.append_tx (ClientAccount.new 1) (depositTx 1 1 10)).2

/-- A fresh account for client 1 after deposit(tx 1, 10) and an active
dispute of transaction 1. -/
def accDisputed : ClientAccount :=
  ClientAccount.replay (ClientAccount.new 1) [depositTx 1 1 10, disputeTx 1 1]

/-- A fresh account for client 1 after deposit(tx 1, 10) and
withdrawal(tx 2, 4), both logged. -/
def accDepWd : ClientAccount :=
  ClientAccount.replay (ClientAccount.new 1) [depositTx 1 1 10, withdrawalTx 1 2 4]

/-- A literal account state: client 1 with one logged deposit of 10
under transaction id 1, available 10, nothing held, unlocked. This is
the state `accDep10` evaluates to, written with literal fields. -/
def accLit10 : ClientAccount :=
  { id := 1
    log := [(1, depositTx 1 1 10)]
    disputes := []
    available := 10
    held := 0
    locked := false }

theorem logGet_append (l : List (TransactionId × Transaction))
    (p : TransactionId × Transaction) (t : TransactionId) (tx : Transaction)
    (h : logGet l t = some tx) : logGet (l ++ [p]) t = some tx := by
  unfold logGet at h ⊢
  rcases hf : l.find? (fun q => q.1 == t) with _ | q
  · simp [hf] at h
  · rw [List.find?_append, hf]
    rw [hf] at h
    simpa using h

theorem deposit_amount_some {t : Transaction} {a : ℚ}
    (h : t.deposit_amount = some a) : t.ty = TransactionType.deposit a := by
  unfold Transaction.deposit_amount at h
  cases ht : t.ty <;> rw [ht] at h <;> simp_all

theorem disputesLogged_insert (acc : ClientAccount) (p : TransactionId × Transaction)
    (h : DisputesLogged acc) :
    DisputesLogged { acc with log := acc.log ++ [p] } := by
  intro t ht
  obtain ⟨tx, a, hg, hty⟩ := h t ht
  exact ⟨tx, a, logGet_append _ _ _ _ hg, hty⟩

theorem disputesLogged_filter (acc : ClientAccount) (i : TransactionId)
    (h : DisputesLogged acc) :
    DisputesLogged { acc with disputes := acc.disputes.filter (fun d => d != i) } := by
  intro t ht
  exact h t (List.mem_of_mem_filter ht)

theorem disputesLogged_start (acc : ClientAccount) (i : TransactionId)
    (target : Transaction) (a : ℚ)
    (hg : logGet acc.log i = some target)
    (hty : target.ty = TransactionType.deposit a)
    (h : DisputesLogged acc) :
    DisputesLogged { acc with disputes := acc.disputes ++ [i] } := by
  intro t ht
  rcases List.mem_append.mp ht with hmem | hmem
  · exact h t hmem
  · have : t = i := List.mem_singleton.mp hmem
    subst this
    exact ⟨target, a, hg, hty⟩

theorem locked_append (acc : ClientAccount) (tx : Transaction)
    (h : acc.locked = true) :
    ClientAccount.append_tx acc tx = (Except.error TransactionError.LockedAccount, acc) := by
  unfold ClientAccount.append_tx
  simp [h]

/-- C1: the code violates the claimed atomicity. Re-applying deposit
(tx 1, amount 10) to the account that already logged it does fail with
`DuplicateTransactionId`, but the available balance has already been
increased from 10 to 20 by the balance mutation that precedes the
duplicate check, so balances are not what they were before the second
application. -/
theorem c1_duplicate_id_mutates_balances :
    accDep10.available = 10 ∧ accDep10.held = 0 ∧
    (ClientAccount.append_tx accDep10 (depositTx 1 1 10)).1 =
      Except.error TransactionError.DuplicateTransactionId ∧
    (ClientAccount.append_tx accDep10 (depositTx 1 1 10)).2.available = 20 := by
  norm_num [accDep10, depositTx, ClientAccount.append_tx, ClientAccount.new,
    TxDiff.calculate, TxDiff.deposit, TxDiff.default, logContains]

/-- C2: the claim fails on the code. A dispute referencing transaction
id 5, absent from the empty log of a fresh unlocked account, succeeds
and changes no balance, but the dispute transaction itself is inserted
into the log under id 5 — dispute-family transactions with an unknown
reference are logged. -/
theorem c2_unknown_dispute_inserted_into_log :
    (ClientAccount.append_tx (ClientAccount.new 1) (disputeTx 1 5)).1 = Except.ok () ∧
    (ClientAccount.append_tx (ClientAccount.new 1) (disputeTx 1 5)).2.available = 0 ∧
    (ClientAccount.append_tx (ClientAccount.new 1) (disputeTx 1 5)).2.held = 0 ∧
    (ClientAccount.append_tx (ClientAccount.new 1) (disputeTx 1 5)).2.log =
      [(5, disputeTx 1 5)] := by
  norm_num [disputeTx, ClientAccount.append_tx, ClientAccount.new,
    TxDiff.calculate, TxDiff.default, logGet, logContains]

/-- C3: the claim fails on the code. On unlocked accounts, a dispute of
an already-disputed transaction, a resolve and a chargeback of a logged
transaction not in dispute, and a dispute referencing a logged
withdrawal all return `DuplicateTransactionId` (the zero diff carries
no dispute action, so the duplicate-id branch runs), not success. The
account state is left unchanged in each case. -/
theorem c3_noop_cases_error_with_duplicate_id :
    accDisputed.locked = false ∧
    (ClientAccount.append_tx accDisputed (disputeTx 1 1)).1 =
      Except.error TransactionError.DuplicateTransactionId ∧
    (ClientAccount.append_tx accDisputed (disputeTx 1 1)).2 = accDisputed ∧
    (ClientAccount.append_tx accDep10 (resolveTx 1 1)).1 =
      Except.error TransactionError.DuplicateTransactionId ∧
    (ClientAccount.append_tx accDep10 (chargebackTx 1 1)).1 =
      Except.error TransactionError.DuplicateTransactionId ∧
    (ClientAccount.append_tx accDepWd (disputeTx 1 2)).1 =
      Except.error TransactionError.DuplicateTransactionId := by
  norm_num [accDisputed, accDep10, accDepWd, depositTx, withdrawalTx, disputeTx,
    resolveTx, chargebackTx, ClientAccount.append_tx, ClientAccount.new,
    ClientAccount.replay, ClientAccount.in_dispute, ClientAccount.has_balance,
    TxDiff.calculate, TxDiff.deposit, TxDiff.withdraw, TxDiff.disputeDiff,
    TxDiff.default, Transaction.deposit_amount, logGet, logContains]

/-- C4: lock monotonicity. Once an account is locked, any transaction
fails with `LockedAccount` and leaves the account (balances, log,
dispute list, lock flag) exactly unchanged, and replaying any further
transaction list leaves it unchanged too, so the locked flag is never
reset. -/
theorem c4_lock_monotonic (acc : ClientAccount) (tx : Transaction)
    (txs : List Transaction) (h : acc.locked = true) :
    ClientAccount.append_tx acc tx = (Except.error TransactionError.LockedAccount, acc) ∧
    ClientAccount.replay acc txs = acc := by
  refine ⟨locked_append acc tx h, ?_⟩
  induction txs with
  | nil => rfl
  | cons t ts ih =>
      have hstep : (ClientAccount.append_tx acc t).2 = acc := by
        rw [locked_append acc t h]
      calc ClientAccount.replay acc (t :: ts)
          = ClientAccount.replay (ClientAccount.append_tx acc t).2 ts := rfl
        _ = ClientAccount.replay acc ts := by rw [hstep]
        _ = acc := ih

/-- Witness for C4 at a concrete locked account. -/
theorem c4_lock_monotonic_witness :
    ({ ClientAccount.new 1 with locked := true } : ClientAccount).locked = true ∧
    (ClientAccount.append_tx { ClientAccount.new 1 with locked := true }
        (depositTx 1 1 10) =
      (Except.error TransactionError.LockedAccount,
        { ClientAccount.new 1 with locked := true }) ∧
    ClientAccount.replay { ClientAccount.new 1 with locked := true }
        [depositTx 1 1 10] =
      { ClientAccount.new 1 with locked := true }) :=
  ⟨rfl, c4_lock_monotonic { ClientAccount.new 1 with locked := true }
    (depositTx 1 1 10) [depositTx 1 1 10] rfl⟩

/-- C5: balance identity. At every point of any replay from a fresh
account, `total` equals `available + held`; `total` is computed on
read from the two stored balances. -/
theorem c5_total_is_available_plus_held (cid : ClientId) (txs : List Transaction) :
    (ClientAccount.replay (ClientAccount.new cid) txs).total =
      (ClientAccount.replay (ClientAccount.new cid) txs).available +
        (ClientAccount.replay (ClientAccount.new cid) txs).held := rfl

/-- C6: the end-to-end scenario. Feeding the six scenario transactions
through the client book yields, for client 1, available = -4, held = 0,
total = -4, locked = true. -/
theorem c6_end_to_end_scenario :
    (bookGet (ClientBook.replay scenarioTxs).clients 1).map
        (fun a => (a.available, a.held, a.total, a.locked)) =
      some (-4, 0, -4, true) := by
  norm_num [scenarioTxs, ClientBook.replay, ClientBook.append_tx, bookGet, bookSet,
    ClientAccount.append_tx, ClientAccount.new, ClientAccount.total,
    ClientAccount.in_dispute, ClientAccount.has_balance,
    TxDiff.calculate, TxDiff.deposit, TxDiff.withdraw, TxDiff.disputeDiff,
    TxDiff.resolveDiff, TxDiff.chargebackDiff, TxDiff.default,
    Transaction.deposit_amount, logGet, logContains, depositTx]

/-- Preservation: one `append_tx` step keeps every actively disputed
identifier pointing at a logged deposit, whatever the transaction and
whether or not the step fails. -/
theorem disputesLogged_append_tx (acc : ClientAccount) (tx : Transaction)
    (h : DisputesLogged acc) :
    DisputesLogged (ClientAccount.append_tx acc tx).2 := by
  unfold ClientAccount.append_tx
  cases hl : acc.locked with
  | true => simpa using h
  | false =>
    rcases tx with ⟨ty, c, i⟩
    cases ty with
    | deposit amount =>
        simp [TxDiff.calculate, TxDiff.deposit, TxDiff.default]
        split
        · exact h
        · exact disputesLogged_insert acc _ h
    | withdrawal amount =>
        simp [TxDiff.calculate, TxDiff.withdraw, TxDiff.default]
        by_cases hb : ClientAccount.has_balance acc amount
        · simp [hb]
          split
          · exact h
          · exact disputesLogged_insert acc _ h
        · simp [hb]
          exact h
    | dispute =>
        simp [TxDiff.calculate]
        rcases hg : logGet acc.log i with _ | target
        · simp [hg, TxDiff.default]
          split
          · exact h
          · exact disputesLogged_insert acc _ h
        · rcases ha : target.deposit_amount with _ | amount
          · simp [hg, ha, TxDiff.default]
            split
            · exact h
            · exact disputesLogged_insert acc _ h
          · by_cases hd : ClientAccount.in_dispute acc i
            · simp [hg, ha, hd, TxDiff.default]
              split
              · exact h
              · exact disputesLogged_insert acc _ h
            · simp [hg, ha, hd, TxDiff.disputeDiff, TxDiff.default]
              exact disputesLogged_start acc i target amount hg (deposit_amount_some ha) h
    | resolve =>
        simp [TxDiff.calculate]
        rcases hg : logGet acc.log i with _ | target
        · simp [hg, TxDiff.default]
          split
          · exact h
          · exact disputesLogged_insert acc _ h
        · rcases ha : target.deposit_amount with _ | amount
          · simp [hg, ha, TxDiff.default]
            split
            · exact h
            · exact disputesLogged_insert acc _ h
          · by_cases hd : ClientAccount.in_dispute acc i
            · simp [hg, ha, hd, TxDiff.resolveDiff, TxDiff.default]
              exact disputesLogged_filter acc i h
            · simp [hg, ha, hd, TxDiff.default]
              split
              · exact h
              · exact disputesLogged_insert acc _ h
    | chargeback =>
        simp [TxDiff.calculate]
        rcases hg : logGet acc.log i with _ | target
        · simp [hg, TxDiff.default]
          split
          · exact h
          · exact disputesLogged_insert acc _ h
        · rcases ha : target.deposit_amount with _ | amount
          · simp [hg, ha, TxDiff.default]
            split
            · exact h
            · exact disputesLogged_insert acc _ h
          · by_cases hd : ClientAccount.in_dispute acc i
            · simp [hg, ha, hd, TxDiff.chargebackDiff, TxDiff.default]
              exact disputesLogged_filter acc i h
            · simp [hg, ha, hd, TxDiff.default]
              split
              · exact h
              · exact disputesLogged_insert acc _ h

/-- C9: after any replay from a fresh account (hence after every
successful application along the way, each of which is itself such a
replay), every identifier in the active-dispute list is present in the
log and the logged entry's variant is `Deposit`. -/
theorem c9_disputed_ids_are_logged_deposits (cid : ClientId) (txs : List Transaction) :
    DisputesLogged (ClientAccount.replay (ClientAccount.new cid) txs) := by
  have hgen : ∀ (l : List Transaction) (acc : ClientAccount), DisputesLogged acc →
      DisputesLogged (ClientAccount.replay acc l) := by
    intro l
    induction l with
    | nil => intro acc h; exact h
    | cons t ts ih =>
        intro acc h
        exact ih _ (disputesLogged_append_tx acc t h)
  apply hgen
  intro t ht
  simp [ClientAccount.new] at ht

/-- Effect of a successful dispute: with the target logged as a deposit
of amount `A` and not currently disputed, `append_tx` holds `A` and
records the active dispute. -/
theorem append_dispute_eq (acc : ClientAccount) (c : ClientId) (t : TransactionId)
    (target : Transaction) (A : ℚ)
    (hl : acc.locked = false)
    (hg : logGet acc.log t = some target)
    (ha : target.deposit_amount = some A)
    (hd : ClientAccount.in_dispute acc t = false) :
    ClientAccount.append_tx acc (disputeTx c t) =
      (Except.ok (), { acc with
        available := acc.available + -A
        held := acc.held + A
        disputes := acc.disputes ++ [t] }) := by
  simp [ClientAccount.append_tx, hl, TxDiff.calculate, disputeTx, hg, ha, hd,
    TxDiff.disputeDiff, TxDiff.default]

/-- Effect of a successful resolve: frees the held amount and ends the
active dispute. -/
theorem append_resolve_eq (acc : ClientAccount) (c : ClientId) (t : TransactionId)
    (target : Transaction) (A : ℚ)
    (hl : acc.locked = false)
    (hg : logGet acc.log t = some target)
    (ha : target.deposit_amount = some A)
    (hd : ClientAccount.in_dispute acc t = true) :
    ClientAccount.append_tx acc (resolveTx c t) =
      (Except.ok (), { acc with
        available := acc.available + A
        held := acc.held + -A
        disputes := acc.disputes.filter (fun d => d != t) }) := by
  simp [ClientAccount.append_tx, hl, TxDiff.calculate, resolveTx, hg, ha, hd,
    TxDiff.resolveDiff, TxDiff.default]

/-- Effect of a successful chargeback: burns the held amount, locks the
account and ends the active dispute. -/
theorem append_chargeback_eq (acc : ClientAccount) (c : ClientId) (t : TransactionId)
    (target : Transaction) (A : ℚ)
    (hl : acc.locked = false)
    (hg : logGet acc.log t = some target)
    (ha : target.deposit_amount = some A)
    (hd : ClientAccount.in_dispute acc t = true) :
    ClientAccount.append_tx acc (chargebackTx c t) =
      (Except.ok (), { acc with
        held := acc.held + -A
        locked := true
        disputes := acc.disputes.filter (fun d => d != t) }) := by
  simp [ClientAccount.append_tx, hl, TxDiff.calculate, chargebackTx, hg, ha, hd,
    TxDiff.chargebackDiff, TxDiff.default]

/-- C7 counterexample: the claim as stated is false. The account
`accDisputed` holds a logged deposit of amount 10 under identifier 1
(with available 0, held 10, transaction 1 already under dispute);
applying Dispute(1) then Resolve(1) ends with available 10, not the
pre-dispute value 0 — the Dispute fails with `DuplicateTransactionId`
while the Resolve still applies. -/
theorem c7_counterexample_already_disputed :
    accDisputed.locked = false ∧
    logGet accDisputed.log 1 = some (depositTx 1 1 10) ∧
    accDisputed.available = 0 ∧ accDisputed.held = 10 ∧
    (ClientAccount.append_tx
        (ClientAccount.append_tx accDisputed (disputeTx 1 1)).2
        (resolveTx 1 1)).2.available = 10 := by
  norm_num [accDisputed, depositTx, disputeTx, resolveTx, ClientAccount.replay,
    ClientAccount.append_tx, ClientAccount.new, ClientAccount.in_dispute,
    ClientAccount.has_balance, TxDiff.calculate, TxDiff.deposit, TxDiff.disputeDiff,
    TxDiff.resolveDiff, TxDiff.default, Transaction.deposit_amount, logGet, logContains]

/-- C7 as amended: for every unlocked account holding a logged deposit
of amount A under identifier t that is not currently under dispute,
Dispute(t) then Resolve(t) returns available and held to exactly their
pre-dispute values, and Dispute(t) then Chargeback(t) leaves available
unchanged from immediately after the dispute, decreases held by exactly
A, and sets locked to true. -/
theorem c7_dispute_round_trip (acc : ClientAccount) (c1 c2 c3 : ClientId)
    (t : TransactionId) (target : Transaction) (A : ℚ)
    (hl : acc.locked = false)
    (hg : logGet acc.log t = some target)
    (hty : target.ty = TransactionType.deposit A)
    (hd : ClientAccount.in_dispute acc t = false) :
    ((ClientAccount.append_tx (ClientAccount.append_tx acc (disputeTx c1 t)).2
        (resolveTx c2 t)).2.available = acc.available ∧
     (ClientAccount.append_tx (ClientAccount.append_tx acc (disputeTx c1 t)).2
        (resolveTx c2 t)).2.held = acc.held) ∧
    ((ClientAccount.append_tx (ClientAccount.append_tx acc (disputeTx c1 t)).2
        (chargebackTx c3 t)).2.available =
          (ClientAccount.append_tx acc (disputeTx c1 t)).2.available ∧
     (ClientAccount.append_tx (ClientAccount.append_tx acc (disputeTx c1 t)).2
        (chargebackTx c3 t)).2.held =
          (ClientAccount.append_tx acc (disputeTx c1 t)).2.held - A ∧
     (ClientAccount.append_tx (ClientAccount.append_tx acc (disputeTx c1 t)).2
        (chargebackTx c3 t)).2.locked = true) := by
  have ha : target.deposit_amount = some A := by
    simp [Transaction.deposit_amount, hty]
  have h1 := append_dispute_eq acc c1 t target A hl hg ha hd
  have hd1 : ClientAccount.in_dispute
      { acc with
        available := acc.available + -A
        held := acc.held + A
        disputes := acc.disputes ++ [t] } t = true := by
    simp [ClientAccount.in_dispute]
  have h2 := append_resolve_eq
    { acc with
      available := acc.available + -A
      held := acc.held + A
      disputes := acc.disputes ++ [t] } c2 t target A hl hg ha hd1
  have h3 := append_chargeback_eq
    { acc with
      available := acc.available + -A
      held := acc.held + A
      disputes := acc.disputes ++ [t] } c3 t target A hl hg ha hd1
  refine ⟨⟨?_, ?_⟩, ?_, ?_, ?_⟩ <;> simp [h1, h2, h3]

/-- Witness for C7 at the literal one-deposit account. -/
theorem c7_dispute_round_trip_witness :
    accLit10.locked = false ∧
    logGet accLit10.log 1 = some (depositTx 1 1 10) ∧
    (depositTx 1 1 10).ty = TransactionType.deposit 10 ∧
    ClientAccount.in_dispute accLit10 1 = false ∧
    (((ClientAccount.append_tx (ClientAccount.append_tx accLit10 (disputeTx 1 1)).2
        (resolveTx 1 1)).2.available = accLit10.available ∧
      (ClientAccount.append_tx (ClientAccount.append_tx accLit10 (disputeTx 1 1)).2
        (resolveTx 1 1)).2.held = accLit10.held) ∧
     ((ClientAccount.append_tx (ClientAccount.append_tx accLit10 (disputeTx 1 1)).2
        (chargebackTx 1 1)).2.available =
          (ClientAccount.append_tx accLit10 (disputeTx 1 1)).2.available ∧
      (ClientAccount.append_tx (ClientAccount.append_tx accLit10 (disputeTx 1 1)).2
        (chargebackTx 1 1)).2.held =
          (ClientAccount.append_tx accLit10 (disputeTx 1 1)).2.held - 10 ∧
      (ClientAccount.append_tx (ClientAccount.append_tx accLit10 (disputeTx 1 1)).2
        (chargebackTx 1 1)).2.locked = true)) :=
  ⟨rfl, rfl, rfl, rfl,
    c7_dispute_round_trip accLit10 1 1 1 1 (depositTx 1 1 10) 10 rfl rfl rfl rfl⟩

/-- C8 counterexample: the claim as stated is false. The unlocked
account `accDep10` has available 10 ≥ 4, yet withdrawal(tx 1, amount 4)
does not succeed: its identifier collides with the logged deposit and
it fails with `DuplicateTransactionId` (with available nevertheless
reduced to 6 by the pre-check balance mutation). -/
theorem c8_counterexample_duplicate_id :
    accDep10.locked = false ∧
    (4 : ℚ) ≤ accDep10.available ∧
    (ClientAccount.append_tx accDep10 (withdrawalTx 1 1 4)).1 =
      Except.error TransactionError.DuplicateTransactionId ∧
    (ClientAccount.append_tx accDep10 (withdrawalTx 1 1 4)).2.available = 6 := by
  norm_num [accDep10, depositTx, withdrawalTx, ClientAccount.append_tx,
    ClientAccount.new, ClientAccount.has_balance, TxDiff.calculate, TxDiff.deposit,
    TxDiff.withdraw, TxDiff.default, logGet, logContains]

/-- C8 as amended: for every unlocked account and every withdrawal
whose identifier is not already present in the log, the withdrawal
succeeds if and only if available ≥ amount, in which case available
decreases by exactly the amount and held is unchanged; otherwise it
fails with `NotEnoughBalance` and the entire account state is
unchanged. -/
theorem c8_withdrawal_iff_balance (acc : ClientAccount) (c : ClientId)
    (t : TransactionId) (amount : ℚ)
    (hl : acc.locked = false)
    (hf : logContains acc.log t = false) :
    ((ClientAccount.append_tx acc (withdrawalTx c t amount)).1 = Except.ok () ↔
      amount ≤ acc.available) ∧
    (amount ≤ acc.available →
      (ClientAccount.append_tx acc (withdrawalTx c t amount)).2.available =
          acc.available - amount ∧
      (ClientAccount.append_tx acc (withdrawalTx c t amount)).2.held = acc.held) ∧
    (¬ amount ≤ acc.available →
      ClientAccount.append_tx acc (withdrawalTx c t amount) =
        (Except.error TransactionError.NotEnoughBalance, acc)) := by
  by_cases hb : amount ≤ acc.available
  · have hbal : ClientAccount.has_balance acc amount = true := by
      simp [ClientAccount.has_balance, ge_iff_le, hb]
    refine ⟨?_, ?_, ?_⟩ <;>
      simp [ClientAccount.append_tx, hl, TxDiff.calculate, withdrawalTx, hbal, hf,
        TxDiff.withdraw, TxDiff.default, hb, sub_eq_add_neg]
  · have hbal : ClientAccount.has_balance acc amount = false := by
      simp [ClientAccount.has_balance, ge_iff_le, hb]
    refine ⟨?_, ?_, ?_⟩ <;>
      simp [ClientAccount.append_tx, hl, TxDiff.calculate, withdrawalTx, hbal, hf,
        TxDiff.withdraw, TxDiff.default, hb]

/-- Witness for C8 at the literal one-deposit account with a fresh
withdrawal identifier. -/
theorem c8_withdrawal_iff_balance_witness :
    accLit10.locked = false ∧
    logContains accLit10.log 2 = false ∧
    (((ClientAccount.append_tx accLit10 (withdrawalTx 1 2 4)).1 = Except.ok () ↔
        (4 : ℚ) ≤ accLit10.available) ∧
     ((4 : ℚ) ≤ accLit10.available →
       (ClientAccount.append_tx accLit10 (withdrawalTx 1 2 4)).2.available =
           accLit10.available - 4 ∧
       (ClientAccount.append_tx accLit10 (withdrawalTx 1 2 4)).2.held =
           accLit10.held) ∧
     (¬ (4 : ℚ) ≤ accLit10.available →
       ClientAccount.append_tx accLit10 (withdrawalTx 1 2 4) =
         (Except.error TransactionError.NotEnoughBalance, accLit10))) :=
  ⟨rfl, rfl, c8_withdrawal_iff_balance accLit10 1 2 4 rfl rfl⟩

/-- C10: no sign validation of amounts. For every unlocked account and
every rational amount d (negative included), a deposit with a fresh
identifier succeeds and changes available by exactly d, and a negative
withdrawal with a fresh identifier succeeds whenever available ≥ d and
increases available by exactly -d. -/
theorem c10_no_amount_sign_validation (acc : ClientAccount) (c : ClientId)
    (t : TransactionId) (d : ℚ)
    (hl : acc.locked = false)
    (hf : logContains acc.log t = false) :
    ((ClientAccount.append_tx acc (depositTx c t d)).1 = Except.ok () ∧
     (ClientAccount.append_tx acc (depositTx c t d)).2.available = acc.available + d ∧
     (ClientAccount.append_tx acc (depositTx c t d)).2.held = acc.held) ∧
    (d < 0 → d ≤ acc.available →
      (ClientAccount.append_tx acc (withdrawalTx c t d)).1 = Except.ok () ∧
      (ClientAccount.append_tx acc (withdrawalTx c t d)).2.available =
        acc.available + -d) := by
  constructor
  · refine ⟨?_, ?_, ?_⟩ <;>
      simp [ClientAccount.append_tx, hl, TxDiff.calculate, depositTx,
        TxDiff.deposit, TxDiff.default, hf]
  · intro hneg hle
    have hbal : ClientAccount.has_balance acc d = true := by
      simp [ClientAccount.has_balance, ge_iff_le, hle]
    constructor <;>
      simp [ClientAccount.append_tx, hl, TxDiff.calculate, withdrawalTx, hbal, hf,
        TxDiff.withdraw, TxDiff.default]

/-- Witness for C10 at a fresh account and d = -3. -/
theorem c10_no_amount_sign_validation_witness :
    (ClientAccount.new 1).locked = false ∧
    logContains (ClientAccount.new 1).log 1 = false ∧
    (((ClientAccount.append_tx (ClientAccount.new 1) (depositTx 1 1 (-3))).1 =
        Except.ok () ∧
      (ClientAccount.append_tx (ClientAccount.new 1) (depositTx 1 1 (-3))).2.available =
        (ClientAccount.new 1).available + (-3) ∧
      (ClientAccount.append_tx (ClientAccount.new 1) (depositTx 1 1 (-3))).2.held =
        (ClientAccount.new 1).held) ∧
     ((-3 : ℚ) < 0 → (-3 : ℚ) ≤ (ClientAccount.new 1).available →
      (ClientAccount.append_tx (ClientAccount.new 1) (withdrawalTx 1 1 (-3))).1 =
        Except.ok () ∧
      (ClientAccount.append_tx (ClientAccount.new 1) (withdrawalTx 1 1 (-3))).2.available =
        (ClientAccount.new 1).available + -(-3))) :=
  ⟨rfl, rfl, c10_no_amount_sign_validation (ClientAccount.new 1) 1 1 (-3) rfl rfl⟩
